import Mathlib

/-!
Shallow embedding of `src/main.py` (FastAPI CRUD service over heroes, teams
and villains, guarded by a static `X-API-Key`).

Each SQLModel table is a Lean structure; a table's contents are a `List` of
rows; every handler becomes a pure function from the table (and its
parameters) to a response together with the post-state of the table.
HTTP errors (`HTTPException`), request-validation failures produced by the
query-parameter constraints, and database integrity failures are the three
error shapes a request can produce.

Integer query parameters (`desplazamiento`, `limite`) are modelled on `Nat`:
the SQL behaviour of a negative OFFSET/LIMIT is backend-defined and no
property below concerns negative values.  Auto-increment id assignment is
modelled as `max existing id + 1` (SQLite rowid semantics): what the
properties use is only that the assigned id is not already present.
-/

set_option autoImplicit false

namespace ApiHeroes

/-- Error shapes a request can produce: an `HTTPException(status_code, detail)`
raised by a handler or the access gate, a 422 request-validation failure from
the query-parameter constraints, or a database integrity failure surfaced
as a 5xx. -/
inductive ErrorApi where
  | http (codigo : Nat) (detalle : String)
  | validacion (detalle : String)
  | integridad (detalle : String)
  deriving DecidableEq, Repr

/-- HTTP status code carried by each error shape. -/
def ErrorApi.codigoDe : ErrorApi → Nat
  | .http c _ => c
  | .validacion _ => 422
  | .integridad _ => 500

/-- `class Heroe(SQLModel, table=True)` — src/main.py lines 12-17. -/
structure Heroe where
  id : Option Int
  nombre : String
  edad : Option Int
  nombre_secreto : String
  poder : Option String
  deriving DecidableEq, Repr

/-- `class HeroeUpdate(SQLModel)` — src/main.py lines 18-22.  The outer
`Option` records whether the field was present in the request body
(pydantic's `exclude_unset` distinction); the inner type is the field's
type in `Heroe`. -/
structure HeroeUpdate where
  nombre : Option String
  edad : Option (Option Int)
  nombre_secreto : Option String
  poder : Option (Option String)
  deriving DecidableEq, Repr

/-- `class Equipo(SQLModel, table=True)` — src/main.py lines 23-27. -/
structure Equipo where
  id : Option Int
  nombre_equipo : String
  base_operaciones : String
  fundacion_anio : Int
  deriving DecidableEq, Repr

/-- `class EquipoUpdate(SQLModel)` — src/main.py lines 28-31. -/
structure EquipoUpdate where
  nombre_equipo : Option String
  base_operaciones : Option String
  fundacion_anio : Option Int
  deriving DecidableEq, Repr

/-- `class Villano(SQLModel, table=True)` — src/main.py lines 32-36. -/
structure Villano where
  id : Option Int
  nombre_villano : String
  amenaza_nivel : Int
  ultima_ubicacion : Option String
  deriving DecidableEq, Repr

/-- `class VillanoUpdate(SQLModel)` — src/main.py lines 37-40. -/
structure VillanoUpdate where
  nombre_villano : Option String
  amenaza_nivel : Option Int
  ultima_ubicacion : Option (Option String)
  deriving DecidableEq, Repr

/-! ## Generic table operations

The three tables share their access pattern; `ident` projects a row to its
primary key. -/

/-- `sesion.get(Modelo, id)`: primary-key lookup. -/
def buscarPorId {α : Type} (ident : α → Option Int) (db : List α) (i : Int) : Option α :=
  db.find? (fun r => decide (ident r = some i))

/-- Largest primary key present in the table (`0` when empty). -/
def maxId {α : Type} (ident : α → Option Int) (db : List α) : Int :=
  db.foldr (fun r m => max ((ident r).getD 0) m) 0

/-- Auto-increment id the database assigns to the next row inserted without
an explicit primary key. -/
def siguienteId {α : Type} (ident : α → Option Int) (db : List α) : Int :=
  maxId ident db + 1

/-- Whether an explicit primary key is already taken. -/
def idUsado {α : Type} (ident : α → Option Int) (db : List α) (i : Int) : Bool :=
  db.any (fun r => decide (ident r = some i))

/-- `sesion.add(x); sesion.commit(); sesion.refresh(x)` for a new row: a row
whose `id` is `None` receives the auto-increment id; a row carrying an
explicit id is inserted with it, and the commit fails with an integrity
error when that id is already taken. -/
def insertar {α : Type} (ident : α → Option Int) (conId : α → Int → α)
    (db : List α) (p : α) : (Except ErrorApi α) × List α :=
  match ident p with
  | none =>
      let nuevo := conId p (siguienteId ident db)
      (.ok nuevo, db ++ [nuevo])
  | some i =>
      if idUsado ident db i then
        (.error (.integridad "llave duplicada viola restricción de unicidad"), db)
      else
        (.ok p, db ++ [p])

/-- `sesion.delete(x); sesion.commit()`: remove the row with that primary key. -/
def borrarFila {α : Type} (ident : α → Option Int) (db : List α) (i : Int) : List α :=
  db.eraseP (fun r => decide (ident r = some i))

/-! ## Hero endpoints — src/main.py lines 109-153 -/

/-- `crear_heroe` (POST /heroes/) — src/main.py lines 109-114. -/
def crear_heroe (db : List Heroe) (heroe : Heroe) : (Except ErrorApi Heroe) × List Heroe :=
  insertar Heroe.id (fun h i => { h with id := some i }) db heroe

/-- Signature default of `desplazamiento` in `leer_heroes` — line 119. -/
def desplazamientoPorDefecto : Nat := 0

/-- Signature default of `limite` in `leer_heroes` — line 120. -/
def limitePorDefecto : Nat := 100

/-- `leer_heroes` (GET /heroes/) — src/main.py lines 116-123.  The
`Annotated[int, Query(le=100)]` constraint on `limite` is checked by the
request-parsing layer before the handler runs: a value above 100 is rejected
with a 422 validation error, it is not clamped. -/
def leer_heroes (db : List Heroe) (desplazamiento limite : Nat) :
    Except ErrorApi (List Heroe) :=
  if limite ≤ 100 then
    .ok ((db.drop desplazamiento).take limite)
  else
    .error (.validacion "Input should be less than or equal to 100")

/-- `leer_heroe` (GET /heroes/{heroe_id}) — src/main.py lines 125-130. -/
def leer_heroe (db : List Heroe) (heroe_id : Int) : Except ErrorApi Heroe :=
  match buscarPorId Heroe.id db heroe_id with
  | none => .error (.http 404 "Héroe no encontrado")
  | some h => .ok h

/-- The merged record `Heroe.model_validate(db_heroe, update=heroe_datos)`
builds on src/main.py line 139: every field present in the update payload
(`model_dump(exclude_unset=True)`) overrides the stored field. -/
def model_validate_update_heroe (db_heroe : Heroe) (datos : HeroeUpdate) : Heroe :=
  { db_heroe with
    nombre := datos.nombre.getD db_heroe.nombre
    edad := datos.edad.getD db_heroe.edad
    nombre_secreto := datos.nombre_secreto.getD db_heroe.nombre_secreto
    poder := datos.poder.getD db_heroe.poder }

/-- `actualizar_heroe` (PATCH /heroes/{heroe_id}) — src/main.py lines 132-144.
Line 139 calls `db_heroe.model_validate(db_heroe, update=heroe_datos)`, a
classmethod returning a NEW merged record, and discards the result:
`db_heroe` itself is never modified, so the subsequent
`add`/`commit`/`refresh` persists no change and the pre-PATCH record is
returned with status 200. -/
def actualizar_heroe (db : List Heroe) (heroe_id : Int) (heroe : HeroeUpdate) :
    (Except ErrorApi Heroe) × List Heroe :=
  match buscarPorId Heroe.id db heroe_id with
  | none => (.error (.http 404 "Héroe no encontrado"), db)
  | some db_heroe =>
      let _resultado_descartado := model_validate_update_heroe db_heroe heroe
      (.ok db_heroe, db)

/-- `eliminar_heroe` (DELETE /heroes/{heroe_id}) — src/main.py lines 146-153.
On success the handler returns `{"ok": True}`, modelled as the `Bool`
`true`. -/
def eliminar_heroe (db : List Heroe) (heroe_id : Int) : (Except ErrorApi Bool) × List Heroe :=
  match buscarPorId Heroe.id db heroe_id with
  | none => (.error (.http 404 "Héroe no encontrado"), db)
  | some _ => (.ok true, borrarFila Heroe.id db heroe_id)

/-! ## Team endpoints — src/main.py lines 159-192 -/

/-- `crear_equipo` (POST /equipos/) — src/main.py lines 159-164. -/
def crear_equipo (db : List Equipo) (equipo : Equipo) : (Except ErrorApi Equipo) × List Equipo :=
  insertar Equipo.id (fun e i => { e with id := some i }) db equipo

/-- `leer_equipos` (GET /equipos/) — src/main.py lines 166-169: no
offset/limit, the whole table is returned. -/
def leer_equipos (db : List Equipo) : Except ErrorApi (List Equipo) :=
  .ok db

/-- `leer_equipo`: primary-key read used by the PATCH and DELETE handlers
(`sesion.get(Equipo, equipo_id)`); the repository exposes no GET-by-id route
for teams, but the not-found behaviour is the one of lines 173-175. -/
def leer_equipo (db : List Equipo) (equipo_id : Int) : Except ErrorApi Equipo :=
  match buscarPorId Equipo.id db equipo_id with
  | none => .error (.http 404 "Equipo no encontrado")
  | some e => .ok e

/-- The merged record `Equipo.model_validate(db_equipo, update=equipo_datos)`
builds on src/main.py line 178. -/
def model_validate_update_equipo (db_equipo : Equipo) (datos : EquipoUpdate) : Equipo :=
  { db_equipo with
    nombre_equipo := datos.nombre_equipo.getD db_equipo.nombre_equipo
    base_operaciones := datos.base_operaciones.getD db_equipo.base_operaciones
    fundacion_anio := datos.fundacion_anio.getD db_equipo.fundacion_anio }

/-- `actualizar_equipo` (PATCH /equipos/{equipo_id}) — src/main.py lines
171-183.  Same pattern as `actualizar_heroe`: the merged record of line 178
is discarded, so the stored row is returned unmodified. -/
def actualizar_equipo (db : List Equipo) (equipo_id : Int) (equipo : EquipoUpdate) :
    (Except ErrorApi Equipo) × List Equipo :=
  match buscarPorId Equipo.id db equipo_id with
  | none => (.error (.http 404 "Equipo no encontrado"), db)
  | some db_equipo =>
      let _resultado_descartado := model_validate_update_equipo db_equipo equipo
      (.ok db_equipo, db)

/-- `eliminar_equipo` (DELETE /equipos/{equipo_id}) — src/main.py lines 185-192. -/
def eliminar_equipo (db : List Equipo) (equipo_id : Int) : (Except ErrorApi Bool) × List Equipo :=
  match buscarPorId Equipo.id db equipo_id with
  | none => (.error (.http 404 "Equipo no encontrado"), db)
  | some _ => (.ok true, borrarFila Equipo.id db equipo_id)

/-! ## Villain endpoints — src/main.py lines 197-230 -/

/-- `crear_villano` (POST /villanos/) — src/main.py lines 197-202. -/
def crear_villano (db : List Villano) (villano : Villano) : (Except ErrorApi Villano) × List Villano :=
  insertar Villano.id (fun v i => { v with id := some i }) db villano

/-- `leer_villanos` (GET /villanos/) — src/main.py lines 204-207: no
offset/limit, the whole table is returned. -/
def leer_villanos (db : List Villano) : Except ErrorApi (List Villano) :=
  .ok db

/-- `leer_villano`: primary-key read used by the PATCH and DELETE handlers
(`sesion.get(Villano, villano_id)`); the repository exposes no GET-by-id
route for villains, but the not-found behaviour is the one of lines 211-213. -/
def leer_villano (db : List Villano) (villano_id : Int) : Except ErrorApi Villano :=
  match buscarPorId Villano.id db villano_id with
  | none => .error (.http 404 "Villano no encontrado")
  | some v => .ok v

/-- The merged record `Villano.model_validate(db_villano, update=villano_datos)`
builds on src/main.py line 216. -/
def model_validate_update_villano (db_villano : Villano) (datos : VillanoUpdate) : Villano :=
  { db_villano with
    nombre_villano := datos.nombre_villano.getD db_villano.nombre_villano
    amenaza_nivel := datos.amenaza_nivel.getD db_villano.amenaza_nivel
    ultima_ubicacion := datos.ultima_ubicacion.getD db_villano.ultima_ubicacion }

/-- `actualizar_villano` (PATCH /villanos/{villano_id}) — src/main.py lines
209-221.  Same pattern as `actualizar_heroe`: the merged record of line 216
is discarded, so the stored row is returned unmodified. -/
def actualizar_villano (db : List Villano) (villano_id : Int) (villano : VillanoUpdate) :
    (Except ErrorApi Villano) × List Villano :=
  match buscarPorId Villano.id db villano_id with
  | none => (.error (.http 404 "Villano no encontrado"), db)
  | some db_villano =>
      let _resultado_descartado := model_validate_update_villano db_villano villano
      (.ok db_villano, db)

/-- `eliminar_villano` (DELETE /villanos/{villano_id}) — src/main.py lines 223-230. -/
def eliminar_villano (db : List Villano) (villano_id : Int) : (Except ErrorApi Bool) × List Villano :=
  match buscarPorId Villano.id db villano_id with
  | none => (.error (.http 404 "Villano no encontrado"), db)
  | some _ => (.ok true, borrarFila Villano.id db villano_id)

/-! ## Access gate, startup, and the application dispatcher -/

/-- `verificar_acceso` — src/main.py lines 77-83.  `api_key` is the value of
the `X-API-Key` header (`none` when the header is absent, since the
`APIKeyHeader` is built with `auto_error=False`); `claveSecreta` is the
environment value `API_CLAVE_SECRETA`, `none` when that variable is unset.
The check `api_key is None or api_key != API_CLAVE_SECRETA` is Option
equality: a present key also fails when the secret itself is `none`. -/
def verificar_acceso (claveSecreta apiKey : Option String) : Except ErrorApi Unit :=
  if apiKey.isNone ∨ apiKey ≠ claveSecreta then
    .error (.http 401 "Acceso Denegado: Clave API inválida o faltante.")
  else
    .ok ()

/-- Module-level check of `DATABASE_URL` — src/main.py lines 49-50:
`if not DATABASE_URL: raise Exception(...)`.  Python's `not` is also true for
the empty string. -/
def validar_DATABASE_URL (databaseUrl : Option String) : Except String String :=
  match databaseUrl with
  | none => .error "La variable de entorno DATABASE_URL no está configurada."
  | some url =>
      if url = "" then
        .error "La variable de entorno DATABASE_URL no está configurada."
      else
        .ok url

/-- The FastAPI application object of src/main.py lines 90-93, available only
once the module loaded: its global dependency is the access gate. -/
structure Aplicacion where
  claveSecreta : Option String
  titulo : String
  deriving DecidableEq, Repr

/-- Loading `src/main.py`: the `DATABASE_URL` check at lines 49-50 runs before
`app = FastAPI(...)` at line 90, so a missing connection string aborts the
process before the application exists and before any request is served. -/
def cargar_modulo (databaseUrl claveSecreta : Option String) : Except String Aplicacion :=
  match validar_DATABASE_URL databaseUrl with
  | .error e => .error e
  | .ok _ => .ok { claveSecreta := claveSecreta
                   titulo := "API CRUD de Héroes, Equipos y Villanos" }

/-- The three tables of the database. -/
structure Estado where
  heroes : List Heroe
  equipos : List Equipo
  villanos : List Villano
  deriving DecidableEq, Repr

/-- One request to any of the routes of the application. -/
inductive Peticion where
  | crearHeroe (heroe : Heroe)
  | listarHeroes (desplazamiento limite : Nat)
  | obtenerHeroe (heroe_id : Int)
  | parcharHeroe (heroe_id : Int) (datos : HeroeUpdate)
  | borrarHeroe (heroe_id : Int)
  | crearEquipo (equipo : Equipo)
  | listarEquipos
  | parcharEquipo (equipo_id : Int) (datos : EquipoUpdate)
  | borrarEquipo (equipo_id : Int)
  | crearVillano (villano : Villano)
  | listarVillanos
  | parcharVillano (villano_id : Int) (datos : VillanoUpdate)
  | borrarVillano (villano_id : Int)
  deriving DecidableEq, Repr

/-- A successful response body. -/
inductive Cuerpo where
  | unHeroe (h : Heroe)
  | variosHeroes (hs : List Heroe)
  | unEquipo (e : Equipo)
  | variosEquipos (es : List Equipo)
  | unVillano (v : Villano)
  | variosVillanos (vs : List Villano)
  | reconocimiento (ok : Bool)
  deriving DecidableEq, Repr

/-- Route a request to its handler (the post-gate part of the application). -/
def manejar (st : Estado) (req : Peticion) : (Except ErrorApi Cuerpo) × Estado :=
  match req with
  | .crearHeroe h =>
      let (r, db) := crear_heroe st.heroes h
      (r.map .unHeroe, { st with heroes := db })
  | .listarHeroes d l => ((leer_heroes st.heroes d l).map .variosHeroes, st)
  | .obtenerHeroe i => ((leer_heroe st.heroes i).map .unHeroe, st)
  | .parcharHeroe i u =>
      let (r, db) := actualizar_heroe st.heroes i u
      (r.map .unHeroe, { st with heroes := db })
  | .borrarHeroe i =>
      let (r, db) := eliminar_heroe st.heroes i
      (r.map .reconocimiento, { st with heroes := db })
  | .crearEquipo e =>
      let (r, db) := crear_equipo st.equipos e
      (r.map .unEquipo, { st with equipos := db })
  | .listarEquipos => ((leer_equipos st.equipos).map .variosEquipos, st)
  | .parcharEquipo i u =>
      let (r, db) := actualizar_equipo st.equipos i u
      (r.map .unEquipo, { st with equipos := db })
  | .borrarEquipo i =>
      let (r, db) := eliminar_equipo st.equipos i
      (r.map .reconocimiento, { st with equipos := db })
  | .crearVillano v =>
      let (r, db) := crear_villano st.villanos v
      (r.map .unVillano, { st with villanos := db })
  | .listarVillanos => ((leer_villanos st.villanos).map .variosVillanos, st)
  | .parcharVillano i u =>
      let (r, db) := actualizar_villano st.villanos i u
      (r.map .unVillano, { st with villanos := db })
  | .borrarVillano i =>
      let (r, db) := eliminar_villano st.villanos i
      (r.map .reconocimiento, { st with villanos := db })

/-- The whole application: the access gate is a global dependency
(src/main.py lines 86-93), so it runs before every handler; when it raises,
the handler never runs and the state is unchanged. -/
def despachar (claveSecreta apiKey : Option String) (st : Estado) (req : Peticion) :
    (Except ErrorApi Cuerpo) × Estado :=
  match verificar_acceso claveSecreta apiKey with
  | .error e => (.error e, st)
  | .ok _ => manejar st req

/-! ## The route table

Read off the route decorators of src/main.py.  Heroes get the full
quintuple (lines 109, 116, 125, 132, 146); teams and villains get only
create, list, patch and delete (lines 159, 166, 171, 185 and 197, 204,
209, 223): neither has a GET-by-identifier route. -/

/-- HTTP methods used by the application's routes. -/
inductive Metodo where
  | GET
  | POST
  | PATCH
  | DELETE
  deriving DecidableEq, Repr

/-- The path shapes of the application: each entity's collection path
`/{entity}/` and item path `/{entity}/{id}`. -/
inductive FormaRuta where
  | coleccionHeroes
  | itemHeroe
  | coleccionEquipos
  | itemEquipo
  | coleccionVillanos
  | itemVillano
  deriving DecidableEq, Repr

/-- Whether a handler is registered for the method and path shape. -/
def tieneRuta (metodo : Metodo) (forma : FormaRuta) : Bool :=
  match metodo, forma with
  | .POST, .coleccionHeroes => true
  | .GET, .coleccionHeroes => true
  | .GET, .itemHeroe => true
  | .PATCH, .itemHeroe => true
  | .DELETE, .itemHeroe => true
  | .POST, .coleccionEquipos => true
  | .GET, .coleccionEquipos => true
  | .PATCH, .itemEquipo => true
  | .DELETE, .itemEquipo => true
  | .POST, .coleccionVillanos => true
  | .GET, .coleccionVillanos => true
  | .PATCH, .itemVillano => true
  | .DELETE, .itemVillano => true
  | _, _ => false

/-- Starlette routing, which runs before any route dependency: a method/path
pair with a handler proceeds; a path registered only under other methods is
rejected with 405 Method Not Allowed; an unknown path with 404 Not Found. -/
def enrutar (metodo : Metodo) (forma : FormaRuta) : Except ErrorApi Unit :=
  if tieneRuta metodo forma then
    .ok ()
  else if [Metodo.GET, Metodo.POST, Metodo.PATCH, Metodo.DELETE].any
      (fun m => tieneRuta m forma) then
    .error (.http 405 "Method Not Allowed")
  else
    .error (.http 404 "Not Found")

/-! ## Concrete records used to evaluate the definitions -/

/-- The hero of the spec's example scenario, as stored with id 1. -/
def heroeSpider : Heroe :=
  { id := some 1, nombre := "Spider", edad := none, nombre_secreto := "Peter", poder := none }

/-- A create payload that carries an explicit id. -/
def heroeConId5 : Heroe :=
  { id := some 5, nombre := "Spider", edad := none, nombre_secreto := "Peter", poder := none }

/-- A generic hero payload without id. -/
def ejemploHeroe : Heroe :=
  { id := none, nombre := "Clark", edad := some 35, nombre_secreto := "Kal", poder := some "vuelo" }

/-- A generic team payload without id. -/
def ejemploEquipo : Equipo :=
  { id := none, nombre_equipo := "Vengadores", base_operaciones := "NY", fundacion_anio := 1963 }

/-- A generic villain payload without id. -/
def ejemploVillano : Villano :=
  { id := none, nombre_villano := "Loki", amenaza_nivel := 8, ultima_ubicacion := none }

/-- The PATCH body of the spec's example scenario: only `poder` is present. -/
def parchePoder : HeroeUpdate :=
  { nombre := none, edad := none, nombre_secreto := none, poder := some (some "webs") }

/-- An empty PATCH body for heroes: no field present. -/
def parcheVacioHeroe : HeroeUpdate :=
  { nombre := none, edad := none, nombre_secreto := none, poder := none }

/-- An empty PATCH body for teams. -/
def parcheVacioEquipo : EquipoUpdate :=
  { nombre_equipo := none, base_operaciones := none, fundacion_anio := none }

/-- An empty PATCH body for villains. -/
def parcheVacioVillano : VillanoUpdate :=
  { nombre_villano := none, amenaza_nivel := none, ultima_ubicacion := none }

/-- The empty database. -/
def estadoVacio : Estado :=
  { heroes := [], equipos := [], villanos := [] }

/-! ## Helper lemmas on the generic table operations -/

theorem maxId_cons {α : Type} (ident : α → Option Int) (a : α) (tl : List α) :
    maxId ident (a :: tl) = max ((ident a).getD 0) (maxId ident tl) :=
  rfl

theorem le_maxId {α : Type} (ident : α → Option Int) (db : List α) :
    ∀ r ∈ db, (ident r).getD 0 ≤ maxId ident db := by
  induction db with
  | nil => intro r hr; cases hr
  | cons a tl ih =>
    intro r hr
    rw [maxId_cons]
    rcases List.mem_cons.mp hr with h | h
    · subst h; exact le_max_left _ _
    · exact le_trans (ih r h) (le_max_right _ _)

theorem siguienteId_fresco {α : Type} (ident : α → Option Int) (db : List α) :
    ∀ r ∈ db, ident r ≠ some (siguienteId ident db) := by
  intro r hr hcontra
  have h1 := le_maxId ident db r hr
  rw [hcontra] at h1
  simp only [Option.getD_some, siguienteId] at h1
  omega

theorem buscarPorId_append_fresco {α : Type} (ident : α → Option Int) (db : List α)
    (nuevo : α) (i : Int) (hn : ident nuevo = some i)
    (hfresco : ∀ r ∈ db, ident r ≠ some i) :
    buscarPorId ident (db ++ [nuevo]) i = some nuevo := by
  induction db with
  | nil => simp [buscarPorId, List.find?, hn]
  | cons a tl ih =>
    have ha : ident a ≠ some i := hfresco a (List.mem_cons_self a tl)
    have htl := ih fun r hr => hfresco r (List.mem_cons_of_mem a hr)
    simpa [buscarPorId, List.find?, ha] using htl

theorem insertar_sin_id {α : Type} (ident : α → Option Int) (conId : α → Int → α)
    (db : List α) (p : α) (hp : ident p = none) :
    insertar ident conId db p =
      (.ok (conId p (siguienteId ident db)), db ++ [conId p (siguienteId ident db)]) := by
  simp [insertar, hp]

theorem insertar_con_id_libre {α : Type} (ident : α → Option Int) (conId : α → Int → α)
    (db : List α) (p : α) (i : Int) (hp : ident p = some i)
    (hlibre : idUsado ident db i = false) :
    insertar ident conId db p = (.ok p, db ++ [p]) := by
  simp [insertar, hp, hlibre]

theorem insertar_con_id_usado {α : Type} (ident : α → Option Int) (conId : α → Int → α)
    (db : List α) (p : α) (i : Int) (hp : ident p = some i)
    (husado : idUsado ident db i = true) :
    insertar ident conId db p =
      (.error (.integridad "llave duplicada viola restricción de unicidad"), db) := by
  simp [insertar, hp, husado]

/-! ## Claim C1 — PATCH with a one-field payload -/

/-- C1: the claim says a PATCH whose payload holds exactly one field sets
that field and returns 200.  On the stored hero of the spec's own example
scenario and the payload `{"poder": "webs"}`, the handler returns 200 with
the record unchanged (`poder` still absent) and stores nothing: line 139 of
src/main.py discards the merged record it builds, whose `poder` would have
been `"webs"`.  The code contradicts the documented PATCH semantics. -/
theorem C1_parche_ignora_el_campo :
    actualizar_heroe [heroeSpider] 1 parchePoder = (.ok heroeSpider, [heroeSpider]) ∧
    heroeSpider.poder = none ∧
    (model_validate_update_heroe heroeSpider parchePoder).poder = some "webs" := by
  refine ⟨?_, rfl, rfl⟩
  rfl

/-! ## Claim C2 — 404 for GET-by-id and DELETE on absent identifiers -/

/-- C2 (counterexample): the claim asserts that a GET-by-identifier request
for a team returns 404 with a message naming the entity; but no GET handler
is registered on the team item path (only PATCH and DELETE are, src/main.py
lines 171 and 185), so routing rejects `GET /equipos/{id}` with 405 Method
Not Allowed and no 404 with an entity message can be produced. -/
theorem C2_contraejemplo_get_equipo :
    tieneRuta Metodo.GET FormaRuta.itemEquipo = false ∧
    enrutar Metodo.GET FormaRuta.itemEquipo = .error (.http 405 "Method Not Allowed") ∧
    ¬ ∃ detalle : String, enrutar Metodo.GET FormaRuta.itemEquipo = .error (.http 404 detalle) := by
  refine ⟨rfl, rfl, ?_⟩
  rintro ⟨detalle, h⟩
  simp [enrutar, tieneRuta] at h

/-- C2 (amended): DELETE on an absent identifier returns 404 with the entity
message for all three entity types, and GET-by-identifier does so for
heroes; teams and villains expose no GET-by-identifier route at all. -/
theorem C2_404_en_ausentes (dbH : List Heroe) (dbE : List Equipo) (dbV : List Villano)
    (i j k : Int)
    (hh : buscarPorId Heroe.id dbH i = none)
    (he : buscarPorId Equipo.id dbE j = none)
    (hv : buscarPorId Villano.id dbV k = none) :
    leer_heroe dbH i = .error (.http 404 "Héroe no encontrado") ∧
    eliminar_heroe dbH i = (.error (.http 404 "Héroe no encontrado"), dbH) ∧
    eliminar_equipo dbE j = (.error (.http 404 "Equipo no encontrado"), dbE) ∧
    eliminar_villano dbV k = (.error (.http 404 "Villano no encontrado"), dbV) ∧
    tieneRuta Metodo.GET FormaRuta.itemEquipo = false ∧
    tieneRuta Metodo.GET FormaRuta.itemVillano = false := by
  simp [leer_heroe, eliminar_heroe, eliminar_equipo, eliminar_villano, hh, he, hv, tieneRuta]

/-- Witness for `C2_404_en_ausentes` at the empty database and id 1. -/
theorem C2_404_en_ausentes_testigo :
    leer_heroe [] 1 = .error (.http 404 "Héroe no encontrado") ∧
    eliminar_heroe [] 1 = (.error (.http 404 "Héroe no encontrado"), []) ∧
    eliminar_equipo [] 1 = (.error (.http 404 "Equipo no encontrado"), []) ∧
    eliminar_villano [] 1 = (.error (.http 404 "Villano no encontrado"), []) ∧
    tieneRuta Metodo.GET FormaRuta.itemEquipo = false ∧
    tieneRuta Metodo.GET FormaRuta.itemVillano = false :=
  C2_404_en_ausentes [] [] [] 1 1 1 rfl rfl rfl

/-! ## Claim C3 — hero-list pagination bound -/

/-- C3 (counterexample): the claim says a request with `limit=200` is not
rejected but capped; the `Query(le=100)` constraint in fact rejects it with
a 422 validation error, so no record list is returned at all. -/
theorem C3_contraejemplo_limite_200 :
    leer_heroes [] desplazamientoPorDefecto 200 =
      .error (.validacion "Input should be less than or equal to 100") ∧
    ¬ ∃ hs : List Heroe, leer_heroes [] desplazamientoPorDefecto 200 = .ok hs := by
  refine ⟨rfl, ?_⟩
  rintro ⟨hs, h⟩
  simp [leer_heroes, desplazamientoPorDefecto] at h

/-- C3 (amended): with no query parameters (defaults offset 0, limit 100)
exactly 100 records are returned when more than 100 exist; any accepted
request returns at most 100 records; a request with limit above 100 is
rejected with a 422 validation error instead of being capped. -/
theorem C3_limite_acotado (db : List Heroe) (d l : Nat) :
    (100 < db.length →
        leer_heroes db desplazamientoPorDefecto limitePorDefecto = .ok (db.take 100) ∧
        (db.take 100).length = 100) ∧
    (l ≤ 100 →
        leer_heroes db d l = .ok ((db.drop d).take l) ∧
        ((db.drop d).take l).length ≤ 100) ∧
    (100 < l →
        leer_heroes db d l = .error (.validacion "Input should be less than or equal to 100")) := by
  refine ⟨fun h100 => ⟨?_, ?_⟩, fun hle => ⟨?_, ?_⟩, fun hgt => ?_⟩
  · simp [leer_heroes, desplazamientoPorDefecto, limitePorDefecto]
  · simp only [List.length_take]
    omega
  · simp [leer_heroes, hle]
  · have := List.length_take_le l (db.drop d)
    omega
  · have : ¬ l ≤ 100 := by omega
    simp [leer_heroes, this]

/-- Witness for `C3_limite_acotado` on a 101-record table: the default
request returns exactly 100 records and limit 200 is rejected. -/
theorem C3_limite_acotado_testigo :
    (leer_heroes (List.replicate 101 ejemploHeroe) desplazamientoPorDefecto limitePorDefecto =
        .ok ((List.replicate 101 ejemploHeroe).take 100) ∧
      ((List.replicate 101 ejemploHeroe).take 100).length = 100) ∧
    leer_heroes (List.replicate 101 ejemploHeroe) 0 200 =
      .error (.validacion "Input should be less than or equal to 100") :=
  ⟨(C3_limite_acotado (List.replicate 101 ejemploHeroe) 0 200).1 (by simp),
   (C3_limite_acotado (List.replicate 101 ejemploHeroe) 0 200).2.2 (by omega)⟩

/-! ## Claim C4 — POST then GET-by-identifier round trip -/

/-- C4 (counterexample): the claim requires the POST/GET-by-identifier round
trip for each of the three entity types; for villains no GET-by-identifier
route exists (src/main.py registers only PATCH and DELETE on the villain
item path, lines 209 and 223), so the GET step of the round trip is rejected
by routing with 405 and can never return the created record. -/
theorem C4_contraejemplo_get_villano :
    tieneRuta Metodo.GET FormaRuta.itemVillano = false ∧
    enrutar Metodo.GET FormaRuta.itemVillano = .error (.http 405 "Method Not Allowed") := by
  exact ⟨rfl, rfl⟩

/-- C4 (amended): for every payload without an id, POST stores the payload
with a newly assigned identifier not previously in use; for heroes the
GET-by-identifier endpoint then returns exactly that record, and for teams
and villains — which expose no GET-by-identifier route — the primary-key
lookup the remaining handlers use (`sesion.get`) finds exactly that
record. -/
theorem C4_post_luego_get (dbH : List Heroe) (dbE : List Equipo) (dbV : List Villano)
    (p : Heroe) (q : Equipo) (w : Villano)
    (hp : p.id = none) (hq : q.id = none) (hw : w.id = none) :
    (∃ n : Int, ∃ h : Heroe,
        h = { p with id := some n } ∧
        crear_heroe dbH p = (.ok h, dbH ++ [h]) ∧
        (∀ r ∈ dbH, r.id ≠ some n) ∧
        leer_heroe (dbH ++ [h]) n = .ok h) ∧
    (∃ n : Int, ∃ e : Equipo,
        e = { q with id := some n } ∧
        crear_equipo dbE q = (.ok e, dbE ++ [e]) ∧
        (∀ r ∈ dbE, r.id ≠ some n) ∧
        buscarPorId Equipo.id (dbE ++ [e]) n = some e) ∧
    (∃ n : Int, ∃ v : Villano,
        v = { w with id := some n } ∧
        crear_villano dbV w = (.ok v, dbV ++ [v]) ∧
        (∀ r ∈ dbV, r.id ≠ some n) ∧
        buscarPorId Villano.id (dbV ++ [v]) n = some v) := by
  refine ⟨⟨siguienteId Heroe.id dbH, { p with id := some (siguienteId Heroe.id dbH) },
            rfl, ?_, siguienteId_fresco Heroe.id dbH, ?_⟩,
          ⟨siguienteId Equipo.id dbE, { q with id := some (siguienteId Equipo.id dbE) },
            rfl, ?_, siguienteId_fresco Equipo.id dbE, ?_⟩,
          ⟨siguienteId Villano.id dbV, { w with id := some (siguienteId Villano.id dbV) },
            rfl, ?_, siguienteId_fresco Villano.id dbV, ?_⟩⟩
  · exact insertar_sin_id Heroe.id (fun h i => { h with id := some i }) dbH p hp
  · rw [leer_heroe, buscarPorId_append_fresco Heroe.id dbH _ _ rfl
      (siguienteId_fresco Heroe.id dbH)]
  · exact insertar_sin_id Equipo.id (fun e i => { e with id := some i }) dbE q hq
  · exact buscarPorId_append_fresco Equipo.id dbE _ _ rfl (siguienteId_fresco Equipo.id dbE)
  · exact insertar_sin_id Villano.id (fun v i => { v with id := some i }) dbV w hw
  · exact buscarPorId_append_fresco Villano.id dbV _ _ rfl (siguienteId_fresco Villano.id dbV)

/-- Witness for `C4_post_luego_get` at the empty database with the three
example payloads. -/
theorem C4_post_luego_get_testigo :
    (∃ n : Int, ∃ h : Heroe,
        h = { ejemploHeroe with id := some n } ∧
        crear_heroe [] ejemploHeroe = (.ok h, [] ++ [h]) ∧
        (∀ r ∈ ([] : List Heroe), r.id ≠ some n) ∧
        leer_heroe ([] ++ [h]) n = .ok h) ∧
    (∃ n : Int, ∃ e : Equipo,
        e = { ejemploEquipo with id := some n } ∧
        crear_equipo [] ejemploEquipo = (.ok e, [] ++ [e]) ∧
        (∀ r ∈ ([] : List Equipo), r.id ≠ some n) ∧
        buscarPorId Equipo.id ([] ++ [e]) n = some e) ∧
    (∃ n : Int, ∃ v : Villano,
        v = { ejemploVillano with id := some n } ∧
        crear_villano [] ejemploVillano = (.ok v, [] ++ [v]) ∧
        (∀ r ∈ ([] : List Villano), r.id ≠ some n) ∧
        buscarPorId Villano.id ([] ++ [v]) n = some v) :=
  C4_post_luego_get [] [] [] ejemploHeroe ejemploEquipo ejemploVillano rfl rfl rfl

/-! ## Claim C5 — client-supplied identifiers on create -/

/-- C5 (counterexample): the claim says a client-supplied id is ignored and
the stored id is assigned by storage.  Creating the same payload in the
empty database with and without an explicit id yields different stored
records: the supplied id 5 is kept, while the storage-assigned id would be
1. -/
theorem C5_contraejemplo_id_no_ignorado :
    (crear_heroe [] heroeConId5).1 = .ok heroeConId5 ∧
    (crear_heroe [] { heroeConId5 with id := none }).1 =
      .ok { heroeConId5 with id := some 1 } ∧
    heroeConId5 ≠ { heroeConId5 with id := some 1 } := by
  refine ⟨rfl, rfl, ?_⟩
  intro h
  have : heroeConId5.id = some 1 := by rw [h]
  simp [heroeConId5] at this

/-- C5 (amended): a client-supplied id is not ignored: if free it becomes
the stored record's identifier, and if already taken the create fails with
an integrity error and the table is unchanged; an omitted id is assigned by
storage as one not previously in use; a stored identifier never changes
afterwards (PATCH leaves the table untouched, DELETE only removes rows). -/
theorem C5_id_suministrado (dbH : List Heroe) (dbE : List Equipo) (dbV : List Villano)
    (p : Heroe) (q : Equipo) (w : Villano) (i j : Int) (u : HeroeUpdate) :
    (p.id = some i → idUsado Heroe.id dbH i = false →
        crear_heroe dbH p = (.ok p, dbH ++ [p])) ∧
    (p.id = some i → idUsado Heroe.id dbH i = true →
        crear_heroe dbH p =
          (.error (.integridad "llave duplicada viola restricción de unicidad"), dbH)) ∧
    (p.id = none →
        crear_heroe dbH p =
          (.ok { p with id := some (siguienteId Heroe.id dbH) },
            dbH ++ [{ p with id := some (siguienteId Heroe.id dbH) }]) ∧
        ∀ r ∈ dbH, r.id ≠ some (siguienteId Heroe.id dbH)) ∧
    (q.id = some i → idUsado Equipo.id dbE i = false →
        crear_equipo dbE q = (.ok q, dbE ++ [q])) ∧
    (w.id = some i → idUsado Villano.id dbV i = false →
        crear_villano dbV w = (.ok w, dbV ++ [w])) ∧
    ((actualizar_heroe dbH j u).2 = dbH) ∧
    (∀ r ∈ (eliminar_heroe dbH j).2, r ∈ dbH) := by
  refine ⟨fun hp hl => insertar_con_id_libre Heroe.id _ dbH p i hp hl,
          fun hp hu => insertar_con_id_usado Heroe.id _ dbH p i hp hu,
          fun hp => ⟨insertar_sin_id Heroe.id _ dbH p hp, siguienteId_fresco Heroe.id dbH⟩,
          fun hq hl => insertar_con_id_libre Equipo.id _ dbE q i hq hl,
          fun hw hl => insertar_con_id_libre Villano.id _ dbV w i hw hl,
          ?_, ?_⟩
  · rw [actualizar_heroe]
    cases buscarPorId Heroe.id dbH j <;> rfl
  · rw [eliminar_heroe]
    cases buscarPorId Heroe.id dbH j with
    | none => intro r hr; exact hr
    | some h =>
        intro r hr
        exact (List.eraseP_sublist dbH).subset hr

/-- Witness for `C5_id_suministrado`: the supplied id 5 is kept in the empty
database, and a PATCH on the empty table leaves it empty. -/
theorem C5_id_suministrado_testigo :
    crear_heroe [] heroeConId5 = (.ok heroeConId5, [] ++ [heroeConId5]) ∧
    (actualizar_heroe [] 1 parcheVacioHeroe).2 = [] :=
  ⟨(C5_id_suministrado [] [] [] heroeConId5 ejemploEquipo ejemploVillano 5 1
      parcheVacioHeroe).1 rfl rfl,
   (C5_id_suministrado [] [] [] heroeConId5 ejemploEquipo ejemploVillano 5 1
      parcheVacioHeroe).2.2.2.2.2.1⟩

/-! ## Claim C6 — the access gate -/

/-- C6: with a configured secret, any request whose `X-API-Key` header is
absent or differs from the secret is answered 401 with the handler never
run and the state unchanged; a request whose header equals the secret
byte-for-byte proceeds to its handler. -/
theorem C6_puerta_de_acceso (s : String) (apiKey : Option String) (st : Estado) (req : Peticion) :
    ((apiKey = none ∨ apiKey ≠ some s) →
        despachar (some s) apiKey st req =
          (.error (.http 401 "Acceso Denegado: Clave API inválida o faltante."), st)) ∧
    (apiKey = some s → despachar (some s) apiKey st req = manejar st req) := by
  constructor
  · rintro (rfl | hne)
    · simp [despachar, verificar_acceso]
    · simp [despachar, verificar_acceso, hne]
  · rintro rfl
    simp [despachar, verificar_acceso]

/-- Witness for `C6_puerta_de_acceso`: a wrong key is rejected with 401 on
the empty state, and the right key lets the request through. -/
theorem C6_puerta_de_acceso_testigo :
    despachar (some "clave") (some "mala") estadoVacio Peticion.listarEquipos =
      (.error (.http 401 "Acceso Denegado: Clave API inválida o faltante."), estadoVacio) ∧
    despachar (some "clave") (some "clave") estadoVacio Peticion.listarEquipos =
      manejar estadoVacio Peticion.listarEquipos :=
  ⟨(C6_puerta_de_acceso "clave" (some "mala") estadoVacio Peticion.listarEquipos).1
      (Or.inr (by simp)),
   (C6_puerta_de_acceso "clave" (some "clave") estadoVacio Peticion.listarEquipos).2 rfl⟩

/-! ## Claim C7 — PATCH with an empty payload -/

/-- C7: for each entity type, a PATCH with an empty payload on a stored
record returns 200 with that record and leaves the table unchanged. -/
theorem C7_parche_vacio (dbH : List Heroe) (dbE : List Equipo) (dbV : List Villano)
    (i j k : Int) (h : Heroe) (e : Equipo) (v : Villano)
    (hh : buscarPorId Heroe.id dbH i = some h)
    (he : buscarPorId Equipo.id dbE j = some e)
    (hv : buscarPorId Villano.id dbV k = some v) :
    actualizar_heroe dbH i parcheVacioHeroe = (.ok h, dbH) ∧
    actualizar_equipo dbE j parcheVacioEquipo = (.ok e, dbE) ∧
    actualizar_villano dbV k parcheVacioVillano = (.ok v, dbV) := by
  simp [actualizar_heroe, actualizar_equipo, actualizar_villano, hh, he, hv]

/-- Witness for `C7_parche_vacio` on singleton tables. -/
theorem C7_parche_vacio_testigo :
    actualizar_heroe [heroeSpider] 1 parcheVacioHeroe = (.ok heroeSpider, [heroeSpider]) ∧
    actualizar_equipo [{ ejemploEquipo with id := some 1 }] 1 parcheVacioEquipo =
      (.ok { ejemploEquipo with id := some 1 }, [{ ejemploEquipo with id := some 1 }]) ∧
    actualizar_villano [{ ejemploVillano with id := some 1 }] 1 parcheVacioVillano =
      (.ok { ejemploVillano with id := some 1 }, [{ ejemploVillano with id := some 1 }]) :=
  C7_parche_vacio [heroeSpider] [{ ejemploEquipo with id := some 1 }]
    [{ ejemploVillano with id := some 1 }] 1 1 1 heroeSpider
    { ejemploEquipo with id := some 1 } { ejemploVillano with id := some 1 } rfl rfl rfl

/-! ## Claim C8 — missing DATABASE_URL is fatal -/

/-- C8: when `DATABASE_URL` is absent from the environment, loading the
module fails with the configured fatal message before the application
object — and hence any request handling — exists. -/
theorem C8_url_ausente_fatal (claveSecreta : Option String) :
    cargar_modulo none claveSecreta =
      .error "La variable de entorno DATABASE_URL no está configurada." :=
  rfl

/-! ## Claim C9 — 404 paths perform no mutation -/

/-- C9: every GET-by-identifier, PATCH or DELETE handler whose target
identifier is absent answers the entity 404 and leaves the whole state
exactly as it was. -/
theorem C9_404_sin_mutacion (st : Estado) (i j k : Int)
    (uH : HeroeUpdate) (uE : EquipoUpdate) (uV : VillanoUpdate)
    (hh : buscarPorId Heroe.id st.heroes i = none)
    (he : buscarPorId Equipo.id st.equipos j = none)
    (hv : buscarPorId Villano.id st.villanos k = none) :
    manejar st (.obtenerHeroe i) = (.error (.http 404 "Héroe no encontrado"), st) ∧
    manejar st (.parcharHeroe i uH) = (.error (.http 404 "Héroe no encontrado"), st) ∧
    manejar st (.borrarHeroe i) = (.error (.http 404 "Héroe no encontrado"), st) ∧
    manejar st (.parcharEquipo j uE) = (.error (.http 404 "Equipo no encontrado"), st) ∧
    manejar st (.borrarEquipo j) = (.error (.http 404 "Equipo no encontrado"), st) ∧
    manejar st (.parcharVillano k uV) = (.error (.http 404 "Villano no encontrado"), st) ∧
    manejar st (.borrarVillano k) = (.error (.http 404 "Villano no encontrado"), st) := by
  simp [manejar, leer_heroe, actualizar_heroe, eliminar_heroe, actualizar_equipo,
        eliminar_equipo, actualizar_villano, eliminar_villano, hh, he, hv, Except.map]

/-- Witness for `C9_404_sin_mutacion` at the empty state and id 1. -/
theorem C9_404_sin_mutacion_testigo :
    manejar estadoVacio (.obtenerHeroe 1) =
      (.error (.http 404 "Héroe no encontrado"), estadoVacio) ∧
    manejar estadoVacio (.parcharHeroe 1 parcheVacioHeroe) =
      (.error (.http 404 "Héroe no encontrado"), estadoVacio) ∧
    manejar estadoVacio (.borrarHeroe 1) =
      (.error (.http 404 "Héroe no encontrado"), estadoVacio) ∧
    manejar estadoVacio (.parcharEquipo 1 parcheVacioEquipo) =
      (.error (.http 404 "Equipo no encontrado"), estadoVacio) ∧
    manejar estadoVacio (.borrarEquipo 1) =
      (.error (.http 404 "Equipo no encontrado"), estadoVacio) ∧
    manejar estadoVacio (.parcharVillano 1 parcheVacioVillano) =
      (.error (.http 404 "Villano no encontrado"), estadoVacio) ∧
    manejar estadoVacio (.borrarVillano 1) =
      (.error (.http 404 "Villano no encontrado"), estadoVacio) :=
  C9_404_sin_mutacion estadoVacio 1 1 1 parcheVacioHeroe parcheVacioEquipo
    parcheVacioVillano rfl rfl rfl

/-! ## Claim C10 — unset secret locks everyone out -/

/-- C10: when `API_CLAVE_SECRETA` is unset, every request is rejected with
401 whatever key the client sends — an absent header fails the `is None`
test, and a present header can never equal `None`. -/
theorem C10_secreto_ausente_rechaza_todo (apiKey : Option String) (st : Estado) (req : Peticion) :
    despachar none apiKey st req =
      (.error (.http 401 "Acceso Denegado: Clave API inválida o faltante."), st) := by
  cases apiKey with
  | none => simp [despachar, verificar_acceso]
  | some k => simp [despachar, verificar_acceso]

end ApiHeroes
